import Mathlib

/-!
Shallow embedding of the Offline Cache Gateway implemented in `src/sw.js`
(service worker of the EternaData site), together with theorems settling the
frozen claims about it.

Modelling conventions:
* A `Response` snapshot keeps the observable fields used by the code:
  numeric status, status text and body.  `Response.ok` is the platform's
  `response.ok` (status in the 2xx range).
* The versioned Cache Store is an association list from URL to snapshot
  (request identity is method + URL; every admitted request is a GET, so the
  URL alone is the key).
* Asynchronous effects are made explicit: an `Env` records the outcome the
  network would give for each URL (`none` = the fetch promise rejects) and
  whether the cache layer's `caches.match` / `caches.open` promises resolve
  (`matchOk` / `openOk`; `false` = the promise rejects, i.e. the await throws).
* Each handler returns a `StepResult`: the value produced (`Outcome.value v`
  where `v : Option Response`, `none` standing for JavaScript `undefined`,
  or `Outcome.thrown` for an exception escaping the handler), the store after
  the call, and the ordered trace of network fetches and cache lookups it
  attempted.
-/

namespace SW

/-- A response snapshot: status, statusText and body, as observed by `sw.js`. -/
structure Response where
  status : Nat
  statusText : String
  body : String
deriving Repr, DecidableEq

/-- The platform's `response.ok`: status in the 2xx range. -/
def Response.ok (r : Response) : Bool :=
  decide (200 ≤ r.status) && decide (r.status ≤ 299)

/-- The Cache Store contents: URL-keyed snapshots. -/
abbrev Store := List (String × Response)

/-- `caches.match` against the store: first entry whose key is the URL. -/
def Store.lookup : Store → String → Option Response
  | [], _ => none
  | (k, v) :: rest, url => if k = url then some v else Store.lookup rest url

/-- `cache.put`: atomically replace any entry for the URL with the snapshot. -/
def Store.put (s : Store) (url : String) (r : Response) : Store :=
  (url, r) :: s.filter (fun p => p.1 != url)

/-- A request as the fetch listener sees it: method, URL, destination kind. -/
structure Request where
  method : String
  url : String
  destination : String
deriving Repr, DecidableEq

/-- The environment of one handling task: the network's answer per URL
(`none` = the fetch rejects), and whether the cache layer's `match` and
`open` operations resolve (`false` = the corresponding promise rejects). -/
structure Env where
  fetchResult : String → Option Response
  matchOk : Bool
  openOk : Bool

/-- Observable actions of a handler, in order. -/
inductive Event where
  | netFetch (url : String)
  | cacheLookup (url : String)
deriving Repr, DecidableEq

/-- What a handler call produced: a value (`none` models JavaScript
`undefined`) or an exception escaping the handler. -/
inductive Outcome where
  | value (v : Option Response)
  | thrown
deriving Repr, DecidableEq

/-- Result of running a handler: outcome, store afterwards, action trace. -/
structure StepResult where
  outcome : Outcome
  store : Store
  trace : List Event
deriving Repr, DecidableEq

/-- `const CACHE_NAME = 'eternadata-v1.0.0'` -/
def CACHE_NAME : String := "eternadata-v1.0.0"

/-- `const OFFLINE_PAGE = '/offline.html'` -/
def OFFLINE_PAGE : String := "/offline.html"

/-- `const STATIC_CACHE = [...]` — the Static Manifest. -/
def STATIC_CACHE : List String :=
  ["/", "/index.html", "/assets/styles.css", "/assets/script.js",
   "/assets/logo.svg", "/assets/favicon.svg", "/offline.html"]

/-- The catch block of `handleDocumentRequest` in `sw.js`: network failed, so
try `caches.match(request)`; on a hit return the cached response, otherwise
return `caches.match(OFFLINE_PAGE)` (which is `undefined` when the offline
page is not cached).  A rejection of `caches.match` inside this catch block
is not caught again, so it escapes the handler (`Outcome.thrown`).
`tr` is the trace accumulated before entering the catch block. -/
def documentFallback (env : Env) (store : Store) (request : Request)
    (tr : List Event) : StepResult :=
  if env.matchOk then
    match store.lookup request.url with
    | some cachedResponse =>
        ⟨.value (some cachedResponse), store, tr ++ [.cacheLookup request.url]⟩
    | none =>
        ⟨.value (store.lookup OFFLINE_PAGE), store,
          tr ++ [.cacheLookup request.url, .cacheLookup OFFLINE_PAGE]⟩
  else ⟨.thrown, store, tr ++ [.cacheLookup request.url]⟩

/-- `handleDocumentRequest` in `sw.js`: try the network; if the response is
ok, open the store, put a clone keyed by the request and return the response;
a non-ok response throws into the local catch; a fetch rejection or an
`caches.open` rejection inside the try block also lands in the local catch,
which is `documentFallback`. -/
def handleDocumentRequest (env : Env) (store : Store) (request : Request) :
    StepResult :=
  match env.fetchResult request.url with
  | some networkResponse =>
      if networkResponse.ok then
        if env.openOk then
          ⟨.value (some networkResponse), store.put request.url networkResponse,
            [.netFetch request.url]⟩
        else
          documentFallback env store request [.netFetch request.url]
      else
        documentFallback env store request [.netFetch request.url]
  | none => documentFallback env store request [.netFetch request.url]

/-- `handleAssetRequest` in `sw.js`: `caches.match` first (outside the try
block, so its rejection escapes the handler); on a hit return the snapshot;
on a miss fetch from the network inside a try block whose catch synthesizes
`new Response('Asset not available offline', { status: 404, statusText:
'Not Found' })`; an ok network response is stored (when `caches.open`
resolves) and returned, a non-ok one is returned unstored. -/
def handleAssetRequest (env : Env) (store : Store) (request : Request) :
    StepResult :=
  if env.matchOk then
    match store.lookup request.url with
    | some cachedResponse =>
        ⟨.value (some cachedResponse), store, [.cacheLookup request.url]⟩
    | none =>
        match env.fetchResult request.url with
        | some networkResponse =>
            if networkResponse.ok then
              if env.openOk then
                ⟨.value (some networkResponse),
                  store.put request.url networkResponse,
                  [.cacheLookup request.url, .netFetch request.url]⟩
              else
                ⟨.value (some ⟨404, "Not Found", "Asset not available offline"⟩),
                  store, [.cacheLookup request.url, .netFetch request.url]⟩
            else
              ⟨.value (some networkResponse), store,
                [.cacheLookup request.url, .netFetch request.url]⟩
        | none =>
            ⟨.value (some ⟨404, "Not Found", "Asset not available offline"⟩),
              store, [.cacheLookup request.url, .netFetch request.url]⟩
  else ⟨.thrown, store, [.cacheLookup request.url]⟩

/-- `handleRequest` in `sw.js`: dispatch on `request.destination`
(network-first for `"document"`, cache-first otherwise) inside a try block;
the catch returns `caches.match(OFFLINE_PAGE)` for documents (so a rejection
of that match escapes `handleRequest` itself) and
`new Response('Offline', { status: 503 })` otherwise. -/
def handleRequest (env : Env) (store : Store) (request : Request) :
    StepResult :=
  let sub :=
    if request.destination = "document" then
      handleDocumentRequest env store request
    else
      handleAssetRequest env store request
  match sub.outcome with
  | .value _ => sub
  | .thrown =>
      if request.destination = "document" then
        if env.matchOk then
          ⟨.value (sub.store.lookup OFFLINE_PAGE), sub.store,
            sub.trace ++ [.cacheLookup OFFLINE_PAGE]⟩
        else
          ⟨.thrown, sub.store, sub.trace ++ [.cacheLookup OFFLINE_PAGE]⟩
      else
        ⟨.value (some ⟨503, "", "Offline"⟩), sub.store, sub.trace⟩

/-- JavaScript `s.startsWith(p)`: the code units of `p` are an initial
segment of those of `s`.  Embeds `event.request.url.startsWith(self.location.origin)`. -/
def jsStartsWith (s p : String) : Bool :=
  s.toList.take p.toList.length == p.toList

/-- The admission filter of the fetch listener in `sw.js`: the listener
returns early (declines, default network path) unless the method is `GET`
and the URL starts with `self.location.origin`; otherwise it calls
`event.respondWith(handleRequest(event.request))`. -/
def fetchListenerAdmits (origin : String) (request : Request) : Bool :=
  request.method == "GET" && jsStartsWith request.url origin

/-- The origin of an absolute URL: the `scheme://host` part, i.e. everything
up to the first `/` after the `://` separator.  Used to state what
"same-origin" means; the code itself only performs the string-prefix test. -/
def urlOriginChars : List Char → List Char
  | [] => []
  | ':' :: '/' :: '/' :: rest =>
      ':' :: '/' :: '/' :: rest.takeWhile (fun c => c ≠ '/')
  | c :: rest => c :: urlOriginChars rest

/-- The origin of an absolute URL string. -/
def urlOrigin (url : String) : String :=
  String.mk (urlOriginChars url.toList)

/-- Does the network deliver an ok response for this URL in this
environment?  (`Cache.add` semantics: a rejected fetch or a non-2xx
response makes the addition fail.) -/
def fetchDeliversOk (env : Env) (url : String) : Bool :=
  match env.fetchResult url with
  | some r => r.ok
  | none => false

/-- Insert the fetched snapshot of every manifest URL into the store (the
write phase of `cache.addAll`, reached only when every fetch delivered an
ok response). -/
def insertAll (env : Env) : Store → List String → Store
  | store, [] => store
  | store, url :: rest =>
      match env.fetchResult url with
      | some r => insertAll env (store.put url r) rest
      | none => insertAll env store rest

/-- `cache.addAll(manifest)`: fetch every manifest URL; the batch write is
atomic — if every fetch resolves with an ok response, all snapshots are
inserted and the promise resolves (`some` new store); if any fetch rejects
or yields a non-ok response, the promise rejects (`none`) and the store is
left unchanged. -/
def addAll (env : Env) (store : Store) (manifest : List String) :
    Option Store :=
  if (manifest.all (fetchDeliversOk env)) then
    some (insertAll env store manifest)
  else none

/-- The install listener in `sw.js`: `caches.open(CACHE_NAME)` then
`cache.addAll(STATIC_CACHE)`, with a `.catch` that logs the error.  Returns
the store afterwards and whether the catch branch logged a failure.  A
rejection of `caches.open` (`env.openOk = false`) also lands in the catch. -/
def install (env : Env) (store : Store) : Store × Bool :=
  if env.openOk then
    match addAll env store STATIC_CACHE with
    | some cached => (cached, false)
    | none => (store, true)
  else (store, true)

/-- The activate listener in `sw.js`: enumerate `caches.keys()` and delete
every cache whose name differs from `CACHE_NAME`; the retained names are
those equal to `CACHE_NAME`. -/
def activateRetained (cacheNames : List String) : List String :=
  cacheNames.filter (fun cacheName => cacheName == CACHE_NAME)

/-- `event.data` of a message event, when present: its `type` field. -/
structure MessageData where
  type : String
deriving Repr, DecidableEq

/-- A message event: optional data and the number of transferred ports. -/
structure MessageEvent where
  data : Option MessageData
  ports : Nat
deriving Repr, DecidableEq

/-- The reply posted for `GET_VERSION`: `{ version: CACHE_NAME }`. -/
structure VersionReply where
  version : String
deriving Repr, DecidableEq

/-- Observable effects of one run of the message listener. -/
structure MessageEffects where
  replies : List VersionReply
  skipWaiting : Bool
  loggedUnknown : Option String
  crashed : Bool
deriving Repr, DecidableEq

/-- The message listener in `sw.js`: guarded by `event.data && event.data.type`
(an absent data object or an empty — falsy — type string skips the switch);
`SKIP_WAITING` calls `self.skipWaiting()`; `GET_VERSION` posts
`{ version: CACHE_NAME }` on `event.ports[0]` (when no port was transferred,
`event.ports[0]` is `undefined` and the call throws); any other type is
logged by the default branch. -/
def onMessage (event : MessageEvent) : MessageEffects :=
  match event.data with
  | none => ⟨[], false, none, false⟩
  | some d =>
      if d.type = "" then ⟨[], false, none, false⟩
      else if d.type = "SKIP_WAITING" then ⟨[], true, none, false⟩
      else if d.type = "GET_VERSION" then
        if event.ports = 0 then ⟨[], false, none, true⟩
        else ⟨[⟨CACHE_NAME⟩], false, none, false⟩
      else ⟨[], false, some d.type, false⟩

/-- The store invariant of §3: every entry is an ok (2xx) snapshot. -/
def storeOk (s : Store) : Bool := s.all (fun p => p.2.ok)

/-- Handle the same request `n` times in a row against the same environment,
threading the store. -/
def handleIter (env : Env) (request : Request) : Nat → Store → Store
  | 0, store => store
  | n + 1, store => handleIter env request n (handleRequest env store request).store

/-- An environment where every network fetch rejects (offline) and the
cache layer works. -/
def envOffline : Env := ⟨fun _ => none, true, true⟩

/-- An environment where the cache layer's `caches.match` promises reject. -/
def envCacheBroken : Env := ⟨fun _ => none, false, true⟩

/-- An environment where fetching `/` rejects and every other fetch yields
an ok response. -/
def envRootFails : Env :=
  ⟨fun url => if url = "/" then none else some ⟨200, "OK", "body"⟩, true, true⟩

/-! ### Helper lemmas -/

theorem handleDocumentRequest_trace_cons (env : Env) (store : Store)
    (request : Request) :
    ∃ rest, (handleDocumentRequest env store request).trace =
      Event.netFetch request.url :: rest := by
  unfold handleDocumentRequest documentFallback
  repeat' split
  all_goals simp

theorem handleAssetRequest_trace_cons (env : Env) (store : Store)
    (request : Request) :
    ∃ rest, (handleAssetRequest env store request).trace =
      Event.cacheLookup request.url :: rest := by
  unfold handleAssetRequest
  repeat' split
  all_goals simp

/-! ### Claim theorems -/

/-- **C4.** For every request with destination `"document"`, the Gateway
attempts a network fetch before consulting the cache (the first action in
its trace is the fetch); for every other destination it consults the cache
before attempting any network fetch (the first action is the cache lookup). -/
theorem handleRequest_strategy_order (env : Env) (store : Store)
    (request : Request) :
    (request.destination = "document" →
      (handleRequest env store request).trace.head? =
        some (Event.netFetch request.url)) ∧
    (request.destination ≠ "document" →
      (handleRequest env store request).trace.head? =
        some (Event.cacheLookup request.url)) := by
  constructor
  · intro hdoc
    obtain ⟨rest, hr⟩ := handleDocumentRequest_trace_cons env store request
    unfold handleRequest
    simp only [hdoc, if_pos]
    split
    · simp [hr]
    · split <;> simp [hr]
  · intro hasset
    obtain ⟨rest, hr⟩ := handleAssetRequest_trace_cons env store request
    unfold handleRequest
    simp only [hasset, if_neg, ite_false]
    split
    · simp [hr]
    · simp [hasset, hr]

/-- Witness for C4: a concrete document request fetches first, a concrete
style request looks the cache up first. -/
theorem handleRequest_strategy_order_witness :
    (("document" : String) = "document" ∧
      (handleRequest ⟨fun _ => none, true, true⟩ []
        ⟨"GET", "https://eternadata.github.io/", "document"⟩).trace.head? =
        some (Event.netFetch "https://eternadata.github.io/")) ∧
    (("style" : String) ≠ "document" ∧
      (handleRequest ⟨fun _ => none, true, true⟩ []
        ⟨"GET", "https://eternadata.github.io/assets/styles.css", "style"⟩).trace.head? =
        some (Event.cacheLookup "https://eternadata.github.io/assets/styles.css")) :=
  ⟨⟨rfl, (handleRequest_strategy_order ⟨fun _ => none, true, true⟩ []
      ⟨"GET", "https://eternadata.github.io/", "document"⟩).1 rfl⟩,
   ⟨by decide, (handleRequest_strategy_order ⟨fun _ => none, true, true⟩ []
      ⟨"GET", "https://eternadata.github.io/assets/styles.css", "style"⟩).2 (by decide)⟩⟩

/-- **C9.** For every asset request whose URL is already in the Cache Store,
handling it performs no network fetch (the trace is the single cache lookup),
returns the stored snapshot, and leaves the store unchanged; iterating the
request any number of times leaves the store unchanged, so every repetition
returns the same byte-identical snapshot. -/
theorem cached_asset_hit_idempotent (env : Env) (store : Store)
    (request : Request) (r : Response)
    (hdest : request.destination ≠ "document") (hmatch : env.matchOk = true)
    (hhit : store.lookup request.url = some r) :
    handleRequest env store request =
      ⟨Outcome.value (some r), store, [Event.cacheLookup request.url]⟩ ∧
    ∀ n, handleIter env request n store = store := by
  have hasset : handleAssetRequest env store request =
      ⟨Outcome.value (some r), store, [Event.cacheLookup request.url]⟩ := by
    unfold handleAssetRequest
    simp [hmatch, hhit]
  have hmain : handleRequest env store request =
      ⟨Outcome.value (some r), store, [Event.cacheLookup request.url]⟩ := by
    unfold handleRequest
    simp [hdest, hasset]
  refine ⟨hmain, fun n => ?_⟩
  induction n with
  | zero => rfl
  | succ n ih => simp [handleIter, hmain, ih]

/-- Witness for C9: a cached stylesheet is served from the store with no
fetch, and ten repetitions leave the store unchanged. -/
theorem cached_asset_hit_idempotent_witness :
    (handleRequest envOffline
        [("https://eternadata.github.io/assets/styles.css", ⟨200, "OK", "css"⟩)]
        ⟨"GET", "https://eternadata.github.io/assets/styles.css", "style"⟩ =
      ⟨Outcome.value (some ⟨200, "OK", "css"⟩),
        [("https://eternadata.github.io/assets/styles.css", ⟨200, "OK", "css"⟩)],
        [Event.cacheLookup "https://eternadata.github.io/assets/styles.css"]⟩) ∧
    handleIter envOffline
        ⟨"GET", "https://eternadata.github.io/assets/styles.css", "style"⟩ 10
        [("https://eternadata.github.io/assets/styles.css", ⟨200, "OK", "css"⟩)] =
      [("https://eternadata.github.io/assets/styles.css", ⟨200, "OK", "css"⟩)] :=
  ⟨(cached_asset_hit_idempotent envOffline
      [("https://eternadata.github.io/assets/styles.css", ⟨200, "OK", "css"⟩)]
      ⟨"GET", "https://eternadata.github.io/assets/styles.css", "style"⟩
      ⟨200, "OK", "css"⟩ (by decide) rfl (by decide)).1,
   (cached_asset_hit_idempotent envOffline
      [("https://eternadata.github.io/assets/styles.css", ⟨200, "OK", "css"⟩)]
      ⟨"GET", "https://eternadata.github.io/assets/styles.css", "style"⟩
      ⟨200, "OK", "css"⟩ (by decide) rfl (by decide)).2 10⟩

/-- **C7.** After the activate phase the retained cache names are exactly
those equal to the current version tag: every retained name is `CACHE_NAME`,
and when the current store existed beforehand the retained set contains
exactly it. -/
theorem activate_retains_only_current (cacheNames : List String) :
    (∀ n ∈ activateRetained cacheNames, n = CACHE_NAME) ∧
    (CACHE_NAME ∈ cacheNames →
      ∀ n, n ∈ activateRetained cacheNames ↔ n = CACHE_NAME) := by
  constructor
  · intro n hn
    simp [activateRetained, List.mem_filter] at hn
    exact hn.2
  · intro hmem n
    constructor
    · intro hn
      simp [activateRetained, List.mem_filter] at hn
      exact hn.2
    · intro hn
      subst hn
      simp [activateRetained, List.mem_filter, hmem]

/-- Witness for C7, on the spec's scenario 5: activating with caches
`eternadata-v1.0.0` and `eternadata-v0.9.0` keeps the current tag and drops
the old one. -/
theorem activate_retains_only_current_witness :
    CACHE_NAME ∈ ["eternadata-v1.0.0", "eternadata-v0.9.0"] ∧
    "eternadata-v1.0.0" ∈
      activateRetained ["eternadata-v1.0.0", "eternadata-v0.9.0"] ∧
    "eternadata-v0.9.0" ∉
      activateRetained ["eternadata-v1.0.0", "eternadata-v0.9.0"] :=
  ⟨by decide,
   ((activate_retains_only_current ["eternadata-v1.0.0", "eternadata-v0.9.0"]).2
      (by decide) "eternadata-v1.0.0").2 (by decide),
   fun h => by
     have heq := (activate_retains_only_current
       ["eternadata-v1.0.0", "eternadata-v0.9.0"]).1 "eternadata-v0.9.0" h
     exact absurd heq (by decide)⟩

/-- **C10.** For every message event carrying a data object: a
`GET_VERSION` message (with a reply port transferred, as the protocol's
reply channel requires) yields exactly one reply `{ version: CACHE_NAME }`,
no skip-waiting, no log and no crash; a message of any unrecognized type
yields no reply, is logged, and does not crash. -/
theorem onMessage_contract (event : MessageEvent) (d : MessageData)
    (hdata : event.data = some d) :
    (d.type = "GET_VERSION" → 0 < event.ports →
      onMessage event = ⟨[⟨CACHE_NAME⟩], false, none, false⟩) ∧
    (d.type ≠ "" → d.type ≠ "SKIP_WAITING" → d.type ≠ "GET_VERSION" →
      onMessage event = ⟨[], false, some d.type, false⟩) := by
  constructor
  · intro ht hp
    have h0 : event.ports ≠ 0 := Nat.pos_iff_ne_zero.mp hp
    simp [onMessage, hdata, ht, h0]
  · intro h1 h2 h3
    simp [onMessage, hdata, h1, h2, h3]

/-- Witness for C10: a concrete `GET_VERSION` query with one port gets the
version reply; a concrete `HELLO` message is logged with no reply. -/
theorem onMessage_contract_witness :
    onMessage ⟨some ⟨"GET_VERSION"⟩, 1⟩ =
      ⟨[⟨CACHE_NAME⟩], false, none, false⟩ ∧
    onMessage ⟨some ⟨"HELLO"⟩, 0⟩ = ⟨[], false, some "HELLO", false⟩ :=
  ⟨(onMessage_contract ⟨some ⟨"GET_VERSION"⟩, 1⟩ ⟨"GET_VERSION"⟩ rfl).1 rfl
      (by decide),
   (onMessage_contract ⟨some ⟨"HELLO"⟩, 0⟩ ⟨"HELLO"⟩ rfl).2 (by decide)
      (by decide) (by decide)⟩

/-- **C3.** The admission filter tests `url.startsWith(origin)`, a plain
string-prefix check, not an origin comparison.  A GET request for a URL on a
foreign origin that merely begins with the Gateway's origin string (here
`https://eternadata.github.io.evil.example`, whose origin differs from
`https://eternadata.github.io`) is admitted and handed to a caching
strategy, contradicting the intended filter (the code's own comment says
"Skip external URLs"); a non-GET request is indeed declined. -/
theorem admission_filter_passes_foreign_origin :
    fetchListenerAdmits "https://eternadata.github.io"
      ⟨"GET", "https://eternadata.github.io.evil.example/img.png", "image"⟩ =
      true ∧
    urlOrigin "https://eternadata.github.io.evil.example/img.png" ≠
      "https://eternadata.github.io" ∧
    fetchListenerAdmits "https://eternadata.github.io"
      ⟨"POST", "https://eternadata.github.io/contact", "document"⟩ = false ∧
    fetchListenerAdmits "https://eternadata.github.io"
      ⟨"GET", "https://other.example/app.js", "script"⟩ = false := by
  decide

/-- **C2** fails as stated: in the environment where the manifest fetch for
`/` rejects and every other fetch succeeds with an ok response, install logs
the failure but `/index.html` — whose own fetch succeeded — is absent from
the store afterwards, because `cache.addAll` is an atomic batch, not
per-entry best-effort. -/
theorem install_fetch_failure_counterexample :
    envRootFails.fetchResult "/" = none ∧
    envRootFails.fetchResult "/index.html" = some ⟨200, "OK", "body"⟩ ∧
    Store.lookup (install envRootFails []).1 "/index.html" = none ∧
    (install envRootFails []).2 = true := by
  decide

/-- **C2 (amended).** If fetching any one Static Manifest entry fails (the
fetch rejects or delivers a non-ok response), the failure is logged and
install completes without aborting — but no manifest entry at all is
inserted: the store is left unchanged, population being all-or-nothing
(`cache.addAll` is an atomic batch). -/
theorem install_fetch_failure_all_or_nothing (env : Env) (store : Store)
    (url : String) (hmem : url ∈ STATIC_CACHE)
    (hfail : fetchDeliversOk env url = false) :
    install env store = (store, true) := by
  have hall : STATIC_CACHE.all (fetchDeliversOk env) = false := by
    rw [List.all_eq_false]
    exact ⟨url, hmem, by simp [hfail]⟩
  unfold install addAll
  cases hopen : env.openOk <;> simp [hopen, hall]

/-- Witness for the amended C2: in the environment where fetching `/`
rejects, install leaves an empty store empty and logs the failure. -/
theorem install_fetch_failure_all_or_nothing_witness :
    "/" ∈ STATIC_CACHE ∧ fetchDeliversOk envRootFails "/" = false ∧
    install envRootFails [] = ([], true) :=
  ⟨by decide, by decide,
   install_fetch_failure_all_or_nothing envRootFails [] "/" (by decide)
     (by decide)⟩

theorem storeOk_put (s : Store) (url : String) (r : Response)
    (hs : storeOk s = true) (hr : r.ok = true) :
    storeOk (s.put url r) = true := by
  simp only [storeOk, List.all_eq_true] at hs ⊢
  intro p hp
  simp only [Store.put, List.mem_cons, List.mem_filter] at hp
  rcases hp with rfl | ⟨hps, _⟩
  · exact hr
  · exact hs p hps

theorem storeOk_documentFallback (env : Env) (store : Store)
    (request : Request) (tr : List Event) (hs : storeOk store = true) :
    storeOk (documentFallback env store request tr).store = true := by
  unfold documentFallback
  repeat' split
  all_goals exact hs

theorem storeOk_handleDocumentRequest (env : Env) (store : Store)
    (request : Request) (hs : storeOk store = true) :
    storeOk (handleDocumentRequest env store request).store = true := by
  unfold handleDocumentRequest
  cases hfetch : env.fetchResult request.url with
  | none => exact storeOk_documentFallback env store request _ hs
  | some r =>
      by_cases hok : r.ok = true
      · cases hopen : env.openOk with
        | false => simp [hok, hopen, storeOk_documentFallback env store request _ hs]
        | true => simp [hok, hopen, storeOk_put store request.url r hs hok]
      · simp [hok, storeOk_documentFallback env store request _ hs]

theorem storeOk_handleAssetRequest (env : Env) (store : Store)
    (request : Request) (hs : storeOk store = true) :
    storeOk (handleAssetRequest env store request).store = true := by
  unfold handleAssetRequest
  cases hmatch : env.matchOk with
  | false => exact hs
  | true =>
      simp only [if_pos]
      cases hhit : store.lookup request.url with
      | some cached => exact hs
      | none =>
          cases hfetch : env.fetchResult request.url with
          | none => exact hs
          | some r =>
              by_cases hok : r.ok = true
              · cases hopen : env.openOk with
                | false => simp [hok, hopen, hs]
                | true => simp [hok, hopen, storeOk_put store request.url r hs hok]
              · simp [hok, hs]

theorem handleRequest_store_eq (env : Env) (store : Store)
    (request : Request) :
    (handleRequest env store request).store =
      (if request.destination = "document" then
        handleDocumentRequest env store request
      else handleAssetRequest env store request).store := by
  unfold handleRequest
  dsimp only
  repeat' split
  all_goals rfl

theorem storeOk_insertAll (env : Env) (manifest : List String) :
    ∀ store : Store, storeOk store = true →
      manifest.all (fetchDeliversOk env) = true →
      storeOk (insertAll env store manifest) = true := by
  induction manifest with
  | nil => intro store hs _; exact hs
  | cons url rest ih =>
      intro store hs hall
      rw [List.all_cons, Bool.and_eq_true] at hall
      obtain ⟨hu, hrest⟩ := hall
      unfold insertAll
      cases hfetch : env.fetchResult url with
      | none => simp [fetchDeliversOk, hfetch] at hu
      | some r =>
          apply ih
          · apply storeOk_put store url r hs
            simpa [fetchDeliversOk, hfetch] using hu
          · exact hrest

/-- **C8.** The store invariant — every entry is a complete ok (2xx)
snapshot, never a partial write (entries are whole snapshots or absent by
construction of the store) — is preserved by every operation: fetch handling
never stores a non-ok snapshot, and install only ever inserts ok snapshots. -/
theorem store_entries_stay_ok (env : Env) (store : Store) (request : Request)
    (hs : storeOk store = true) :
    storeOk (handleRequest env store request).store = true ∧
    storeOk (install env store).1 = true := by
  constructor
  · rw [handleRequest_store_eq]
    by_cases hdest : request.destination = "document"
    · simpa [hdest] using storeOk_handleDocumentRequest env store request hs
    · simpa [hdest] using storeOk_handleAssetRequest env store request hs
  · unfold install addAll
    cases hopen : env.openOk with
    | false => exact hs
    | true =>
        cases hall : STATIC_CACHE.all (fetchDeliversOk env) with
        | false => simp [hall, hs]
        | true => simp [hall, storeOk_insertAll env STATIC_CACHE store hs hall]

/-- Witness for C8: starting from a store holding one ok snapshot, both a
document request in the offline environment and install in the environment
where `/` fails preserve the invariant. -/
theorem store_entries_stay_ok_witness :
    storeOk [("https://eternadata.github.io/", ⟨200, "OK", "home"⟩)] = true ∧
    storeOk (handleRequest envRootFails
      [("https://eternadata.github.io/", ⟨200, "OK", "home"⟩)]
      ⟨"GET", "https://eternadata.github.io/", "document"⟩).store = true ∧
    storeOk (install envRootFails
      [("https://eternadata.github.io/", ⟨200, "OK", "home"⟩)]).1 = true :=
  ⟨by decide,
   (store_entries_stay_ok envRootFails
     [("https://eternadata.github.io/", ⟨200, "OK", "home"⟩)]
     ⟨"GET", "https://eternadata.github.io/", "document"⟩ (by decide)).1,
   (store_entries_stay_ok envRootFails
     [("https://eternadata.github.io/", ⟨200, "OK", "home"⟩)]
     ⟨"GET", "https://eternadata.github.io/", "document"⟩ (by decide)).2⟩

/-- **C5.** For every document request whose network fetch rejects or
delivers a non-ok response: when the store holds a snapshot for the request,
that snapshot is returned unchanged (with its originally cached status);
when it does not and the store holds the Offline Page snapshot, that
snapshot is returned. -/
theorem document_fallback_behavior (env : Env) (store : Store)
    (request : Request) (hdoc : request.destination = "document")
    (hmatch : env.matchOk = true)
    (hnet : env.fetchResult request.url = none ∨
      ∃ r, env.fetchResult request.url = some r ∧ r.ok = false) :
    (∀ c, store.lookup request.url = some c →
      (handleRequest env store request).outcome = Outcome.value (some c)) ∧
    (store.lookup request.url = none →
      ∀ o, store.lookup OFFLINE_PAGE = some o →
        (handleRequest env store request).outcome = Outcome.value (some o)) := by
  have hfall : handleDocumentRequest env store request =
      documentFallback env store request [Event.netFetch request.url] := by
    rcases hnet with hnone | ⟨r, hr, hok⟩
    · simp [handleDocumentRequest, hnone]
    · simp [handleDocumentRequest, hr, hok]
  constructor
  · intro c hc
    simp [handleRequest, hdoc, hfall, documentFallback, hmatch, hc]
  · intro hmiss o ho
    simp [handleRequest, hdoc, hfall, documentFallback, hmatch, hmiss, ho]

/-- Witness for C5, on the spec's scenarios 2 and 3: offline, a cached
snapshot for the page is served back; offline with nothing cached for the
page but the offline page cached, the offline page snapshot is served. -/
theorem document_fallback_behavior_witness :
    (handleRequest envOffline
        [("https://eternadata.github.io/", ⟨200, "OK", "home"⟩)]
        ⟨"GET", "https://eternadata.github.io/", "document"⟩).outcome =
      Outcome.value (some ⟨200, "OK", "home"⟩) ∧
    (handleRequest envOffline [(OFFLINE_PAGE, ⟨200, "OK", "offline page"⟩)]
        ⟨"GET", "https://eternadata.github.io/about.html", "document"⟩).outcome =
      Outcome.value (some ⟨200, "OK", "offline page"⟩) :=
  ⟨(document_fallback_behavior envOffline
      [("https://eternadata.github.io/", ⟨200, "OK", "home"⟩)]
      ⟨"GET", "https://eternadata.github.io/", "document"⟩ rfl rfl
      (Or.inl rfl)).1 ⟨200, "OK", "home"⟩ (by decide),
   (document_fallback_behavior envOffline
      [(OFFLINE_PAGE, ⟨200, "OK", "offline page"⟩)]
      ⟨"GET", "https://eternadata.github.io/about.html", "document"⟩ rfl rfl
      (Or.inl rfl)).2 (by decide) ⟨200, "OK", "offline page"⟩ (by decide)⟩

/-- **C6.** For every non-document request: when it is not in the store and
its network fetch rejects, the Gateway returns the synthesized
`404 Not Found` response with body `"Asset not available offline"`; and
whenever the asset handler lets an exception escape, the Gateway's top-level
catch returns the synthesized `503` response with body `"Offline"`. -/
theorem asset_failure_synthesis (env : Env) (store : Store)
    (request : Request) (hdest : request.destination ≠ "document") :
    (env.matchOk = true → store.lookup request.url = none →
      env.fetchResult request.url = none →
      (handleRequest env store request).outcome =
        Outcome.value (some ⟨404, "Not Found", "Asset not available offline"⟩)) ∧
    ((handleAssetRequest env store request).outcome = Outcome.thrown →
      (handleRequest env store request).outcome =
        Outcome.value (some ⟨503, "", "Offline"⟩)) := by
  constructor
  · intro hmatch hmiss hnet
    simp [handleRequest, hdest, handleAssetRequest, hmatch, hmiss, hnet]
  · intro hthrown
    simp [handleRequest, hdest, hthrown]

/-- Witness for C6, on the spec's scenario 4 and a broken cache layer: an
uncached asset with the network down gets the synthesized 404; an asset
request whose `caches.match` rejects gets the synthesized 503. -/
theorem asset_failure_synthesis_witness :
    (handleRequest envOffline []
        ⟨"GET", "https://eternadata.github.io/assets/missing.png", "image"⟩).outcome =
      Outcome.value (some ⟨404, "Not Found", "Asset not available offline"⟩) ∧
    (handleRequest envCacheBroken []
        ⟨"GET", "https://eternadata.github.io/assets/styles.css", "style"⟩).outcome =
      Outcome.value (some ⟨503, "", "Offline"⟩) :=
  ⟨(asset_failure_synthesis envOffline []
      ⟨"GET", "https://eternadata.github.io/assets/missing.png", "image"⟩
      (by decide)).1 rfl rfl rfl,
   (asset_failure_synthesis envCacheBroken []
      ⟨"GET", "https://eternadata.github.io/assets/styles.css", "style"⟩
      (by decide)).2 (by decide)⟩

theorem handleAssetRequest_value_some (env : Env) (store : Store)
    (request : Request) (hmatch : env.matchOk = true) :
    ∃ r, (handleAssetRequest env store request).outcome =
      Outcome.value (some r) := by
  unfold handleAssetRequest
  simp only [hmatch, ite_true]
  repeat' split
  all_goals exact ⟨_, rfl⟩

theorem handleDocumentRequest_value_none (env : Env) (store : Store)
    (request : Request) (hmatch : env.matchOk = true) :
    (handleDocumentRequest env store request).outcome ≠ Outcome.thrown ∧
    ((handleDocumentRequest env store request).outcome = Outcome.value none →
      store.lookup request.url = none ∧ store.lookup OFFLINE_PAGE = none) := by
  unfold handleDocumentRequest documentFallback
  simp only [hmatch, ite_true]
  repeat' split
  all_goals constructor
  all_goals simp_all

/-- **C1** fails as stated: the same-origin GET document request below is
admitted by the fetch listener, and in the offline environment with an empty
store (in particular the offline page absent) `handleRequest` resolves —
without throwing — to `undefined` (`Outcome.value none`), which is not a
well-formed response object. -/
theorem handleRequest_undefined_counterexample :
    fetchListenerAdmits "https://eternadata.github.io"
      ⟨"GET", "https://eternadata.github.io/", "document"⟩ = true ∧
    (handleRequest envOffline []
        ⟨"GET", "https://eternadata.github.io/", "document"⟩).outcome =
      Outcome.value none := by
  decide

/-- **C1 (amended).** Provided the cache layer's lookup promises resolve, no
exception ever escapes `handleRequest`; and the resolved value is a
well-formed response object in every case except one: a document request
whose handling fell back while neither the request nor the offline page has
a snapshot in the store, where the value is `undefined`. -/
theorem handleRequest_no_propagation (env : Env) (store : Store)
    (request : Request) (hmatch : env.matchOk = true) :
    (handleRequest env store request).outcome ≠ Outcome.thrown ∧
    ((handleRequest env store request).outcome = Outcome.value none →
      request.destination = "document" ∧ store.lookup request.url = none ∧
        store.lookup OFFLINE_PAGE = none) := by
  by_cases hdest : request.destination = "document"
  · obtain ⟨hnt, hvn⟩ := handleDocumentRequest_value_none env store request hmatch
    have hres : handleRequest env store request =
        handleDocumentRequest env store request := by
      unfold handleRequest
      cases houtcome : (handleDocumentRequest env store request).outcome with
      | value v => simp [hdest, houtcome]
      | thrown => exact absurd houtcome hnt
    rw [hres]
    exact ⟨hnt, fun h => ⟨hdest, hvn h⟩⟩
  · obtain ⟨r, hr⟩ := handleAssetRequest_value_some env store request hmatch
    have hres : handleRequest env store request =
        handleAssetRequest env store request := by
      unfold handleRequest
      simp [hdest, hr]
    rw [hres, hr]
    exact ⟨by simp, by simp⟩

/-- Witness for the amended C1: in the offline environment (whose cache
layer works) a document request on the empty store does not throw. -/
theorem handleRequest_no_propagation_witness :
    envOffline.matchOk = true ∧
    (handleRequest envOffline []
        ⟨"GET", "https://eternadata.github.io/", "document"⟩).outcome ≠
      Outcome.thrown :=
  ⟨rfl, (handleRequest_no_propagation envOffline []
    ⟨"GET", "https://eternadata.github.io/", "document"⟩ rfl).1⟩

end SW
